import Mathlib

/-!
Verification of the Project-Kisan agricultural assistant backend.

This file shallowly embeds the pure logic of the Python sources
(`app/google_adk_integration/...`) in Lean 4 and proves properties of the
embedded functions.  Machine floats are modelled by the rationals `ℚ`,
Python exceptions by `Except`/`Option`, Python `datetime` values by integer
day numbers, and Python dictionaries by structures or association lists.
-/

namespace Kisan

/-- Python `round` uses round-half-to-even on the scaled value.  This models
ideal decimal rounding of a rational to the nearest integer, ties to even. -/
def round_half_even (x : ℚ) : ℤ :=
  if x - (⌊x⌋ : ℚ) < 1/2 then ⌊x⌋
  else if 1/2 < x - (⌊x⌋ : ℚ) then ⌊x⌋ + 1
  else if ⌊x⌋ % 2 = 0 then ⌊x⌋ else ⌊x⌋ + 1

/-- Model of Python `round(x, n)` for a rational `x` and `n` decimal digits. -/
def py_round (x : ℚ) (n : ℕ) : ℚ :=
  ((round_half_even (x * (10 : ℚ) ^ n) : ℤ) : ℚ) / (10 : ℚ) ^ n

/-- Model of the Python format specifier `:.0f` (round to zero decimals and
print the integer). -/
def fmt0 (x : ℚ) : String :=
  toString (round_half_even x)

/-- Model of the Python format specifier `:+.0f` followed by a percent sign,
as used for the quality adjustment string in `get_selling_advice`. -/
def fmt_signed_pct (x : ℚ) : String :=
  let n := round_half_even x
  (if 0 ≤ n then "+" ++ toString n else toString n) ++ "%"

/-- Model of Python `str.strip()` (with the default whitespace set):
drop leading and trailing whitespace characters. -/
def py_strip_list (l : List Char) : List Char :=
  ((l.dropWhile Char.isWhitespace).reverse.dropWhile Char.isWhitespace).reverse

/-- `py_strip_list` lifted to `String`. -/
def py_strip (s : String) : String :=
  ⟨py_strip_list s.data⟩

/-- Model of Python `str.lower()` on character lists (ASCII case map; the
inputs relevant here are ASCII or Devanagari, the latter having no case). -/
def py_lower (l : List Char) : List Char :=
  l.map Char.toLower

/-- Python `s.lower().strip()`, the normalization used by
`normalize_crop_name`. -/
def py_lower_strip (s : String) : String :=
  ⟨py_strip_list (py_lower s.data)⟩

/-- One fuel-indexed step of Python `str.replace`: scan left to right, replace
each non-overlapping occurrence of `p` by `r`, never rescanning replaced text.
The fuel is an upper bound on the number of scanned characters; each step
consumes at least one character of the input. -/
def replace_fuel (p r : List Char) : ℕ → List Char → List Char
  | 0, l => l
  | _ + 1, [] => []
  | n + 1, c :: cs =>
    if p ≠ [] ∧ p.isPrefixOf (c :: cs) then
      r ++ replace_fuel p r n (List.drop p.length (c :: cs))
    else
      c :: replace_fuel p r n cs

/-- Model of Python `s.replace(p, r)` for a non-empty pattern `p`. -/
def str_replace (s p r : String) : String :=
  ⟨replace_fuel p.data r.data s.data.length s.data⟩

/-- Model of Python `s.split(sep)` for a single-character separator. -/
def split_ch (sep : Char) : List Char → List (List Char)
  | [] => [[]]
  | c :: cs =>
    match split_ch sep cs with
    | [] => [[]]
    | h :: t => if c = sep then [] :: h :: t else (c :: h) :: t

/-- Model of Python's substring containment test `pat in s` on character
lists: `pat` occurs contiguously somewhere in `l`. -/
def has_sub (pat : List Char) : List Char → Bool
  | [] => pat.isEmpty
  | c :: cs => pat.isPrefixOf (c :: cs) || has_sub pat cs

/-- Model of the SQL `field ILIKE '%pat%'` filters used throughout the market
tools: case-insensitive substring containment (the query strings used by the
tools contain no further SQL wildcards). -/
def ilike_substr (field pat : String) : Bool :=
  has_sub (py_lower pat.data) (py_lower field.data)

/-! ## `utils/helpers.py` -/

/-- The fixed Hindi-to-English crop dictionary of `normalize_crop_name`
(`utils/helpers.py`, `variations`). -/
def crop_variations : List (String × String) :=
  [("गेहूं", "wheat"),
   ("चावल", "rice"),
   ("धान", "rice"),
   ("टमाटर", "tomato"),
   ("प्याज", "onion"),
   ("आलू", "potato"),
   ("गन्ना", "sugarcane"),
   ("कपास", "cotton"),
   ("सोयाबीन", "soybean"),
   ("मक्का", "maize"),
   ("बाजरा", "bajra")]

/-- Embedding of `normalize_crop_name` (`utils/helpers.py`): empty input maps
to the empty string, otherwise lower-case, trim, and look the result up in
the fixed dictionary, falling back to the normalized input itself. -/
def normalize_crop_name (crop_name : String) : String :=
  if crop_name = "" then ""
  else
    let normalized := py_lower_strip crop_name
    (crop_variations.lookup normalized).getD normalized

/-! ## `services/mandi_db_generation.py` -/

/-- A calendar date as parsed by `_clean_record`'s `strptime` loop. -/
structure PDate where
  day : ℕ
  month : ℕ
  year : ℕ
deriving DecidableEq, Repr

/-- Parse a run of decimal digits (non-empty, all digits) to a number. -/
def parse_digits (l : List Char) : Option ℕ :=
  if l ≠ [] ∧ l.all Char.isDigit then
    some (l.foldl (fun a c => a * 10 + (c.toNat - 48)) 0)
  else none

/-- `strptime` with format `%d<sep>%m<sep>%Y`: day and month of one or two
digits within calendar range, four-digit year. -/
def parse_dmY (sep : Char) (s : String) : Option PDate :=
  match (split_ch sep s.data).map parse_digits with
  | [some d, some m, some y] =>
    if 1 ≤ d ∧ d ≤ 31 ∧ 1 ≤ m ∧ m ≤ 12 ∧ 1000 ≤ y ∧ y ≤ 9999 then
      some ⟨d, m, y⟩
    else none
  | _ => none

/-- `strptime` with format `%Y-%m-%d`. -/
def parse_Ymd (s : String) : Option PDate :=
  match (split_ch '-' s.data).map parse_digits with
  | [some y, some m, some d] =>
    if 1 ≤ d ∧ d ≤ 31 ∧ 1 ≤ m ∧ m ≤ 12 ∧ 1000 ≤ y ∧ y ≤ 9999 then
      some ⟨d, m, y⟩
    else none
  | _ => none

/-- `strptime` with format `%d<sep>%m<sep>%y`, applying Python's two-digit
year pivot (00–68 → 2000s, 69–99 → 1900s). -/
def parse_dmy (sep : Char) (s : String) : Option PDate :=
  match (split_ch sep s.data).map parse_digits with
  | [some d, some m, some y] =>
    if 1 ≤ d ∧ d ≤ 31 ∧ 1 ≤ m ∧ m ≤ 12 ∧ y ≤ 99 then
      some ⟨d, m, if y ≤ 68 then 2000 + y else 1900 + y⟩
    else none
  | _ => none

/-- The `strptime` format cascade of `_clean_record`
(`['%d-%m-%Y', '%d/%m/%Y', '%Y-%m-%d', '%d-%m-%y', '%d/%m/%y']`),
trying each format in turn.  Day-of-month validity against the month length
is not modelled; the claims under verification do not depend on it. -/
def try_parse_date (s : String) : Option PDate :=
  match parse_dmY '-' s with
  | some d => some d
  | none =>
    match parse_dmY '/' s with
    | some d => some d
    | none =>
      match parse_Ymd s with
      | some d => some d
      | none =>
        match parse_dmy '-' s with
        | some d => some d
        | none => parse_dmy '/' s

/-- A raw price value as handed to `_safe_float`: `missing` models an absent
key (whose `.get` default `0` converts to `0.0`), `bad` models `None`, the
empty string, or an unconvertible value, and `val q` a value `float()`
converts to `q`. -/
inductive PyNum where
  | missing : PyNum
  | bad : PyNum
  | val : ℚ → PyNum
deriving DecidableEq, Repr

/-- Embedding of `_safe_float` composed with the `record.get(..., 0)`
default: every failure mode yields `0.0`. -/
def safe_float : PyNum → ℚ
  | .missing => 0
  | .bad => 0
  | .val q => q

/-- A raw government-API record as consumed by `_clean_record`.  String
fields are `Option String` (`none` models an absent key or `None` value). -/
structure RawRecord where
  arrival_date : Option String
  state : Option String
  district : Option String
  market : Option String
  commodity : Option String
  variety : Option String
  grade : Option String
  min_price : PyNum
  max_price : PyNum
  modal_price : PyNum
deriving DecidableEq, Repr

/-- The validation `not record.get(field) or not record[field].strip()` of
`_clean_record`: a required field is rejected when absent, `None`, empty, or
whitespace-only. -/
def is_blank : Option String → Bool
  | none => true
  | some s => py_strip s = ""

/-- `record.get(key, '').strip() or None` for the optional `variety` and
`grade` fields: empty after stripping becomes `None`. -/
def strip_or_none (v : Option String) : Option String :=
  let s := py_strip (v.getD "")
  if s = "" then none else some s

/-- A cleaned, stored market-price row as produced by `_clean_record`. -/
structure CleanedRecord where
  state : String
  district : String
  market : String
  commodity : String
  variety : Option String
  grade : Option String
  arrival_date : PDate
  min_price : ℚ
  max_price : ℚ
  modal_price : ℚ
  is_active : Bool
deriving DecidableEq, Repr

/-- Embedding of `_clean_record`
(`services/mandi_db_generation.py`, lines 222–280): parse the arrival date
through the format cascade, convert the three prices with `_safe_float`,
drop the record when a required field is blank or the modal price is not
strictly positive, clamp `min_price` down and `max_price` up to the modal
price, and return the stored row. -/
def clean_record (r : RawRecord) : Option CleanedRecord :=
  match try_parse_date (r.arrival_date.getD "") with
  | none => none
  | some arrival_date =>
    let min_price := safe_float r.min_price
    let max_price := safe_float r.max_price
    let modal_price := safe_float r.modal_price
    if is_blank r.state ∨ is_blank r.district ∨ is_blank r.market ∨
        is_blank r.commodity then
      none
    else if modal_price ≤ 0 then
      none
    else
      let min_price := if min_price > modal_price then modal_price else min_price
      let max_price := if max_price < modal_price then modal_price else max_price
      some
        { state := py_strip (r.state.getD "")
          district := py_strip (r.district.getD "")
          market := py_strip (r.market.getD "")
          commodity := py_strip (r.commodity.getD "")
          variety := strip_or_none r.variety
          grade := strip_or_none r.grade
          arrival_date := arrival_date
          min_price := min_price
          max_price := max_price
          modal_price := modal_price
          is_active := true }

/-- The day-over-day percentage change computed by `_calculate_price_trends`
(line 323): `(current − previous) / previous × 100`, used only under the
guard `previous_price > 0`. -/
def percentage_change (current previous : ℚ) : ℚ :=
  (current - previous) / previous * 100

/-- The trend classification of `_calculate_price_trends` (lines 326–331):
`"up"` when the percentage change is strictly above 2, `"down"` when it is
strictly below −2, `"stable"` otherwise. -/
def price_trend (current previous : ℚ) : String :=
  if percentage_change current previous > 2 then "up"
  else if percentage_change current previous < -2 then "down"
  else "stable"

/-- The confidence component of `_predict_prices`
(`services/mandi_db_generation.py`, lines 464–501).  `n` is the number of
price records; `vr` is the volatility ratio, i.e. the standard deviation of
the recent window (the up-to-7 most recent points) divided by its mean — the
square root makes it irrational in general, so the ratio is the parameter
here.  With fewer than 3 records the function returns `50.0` unrounded;
otherwise the recent window has at least 3 points, so the code computes
`max(40, min(85, 80 - vr * 100))` and rounds it to one decimal place. -/
def predict_confidence (n : ℕ) (vr : ℚ) : ℚ :=
  if n < 3 then 50
  else py_round (max 40 (min 85 (80 - vr * 100))) 1

/-! ## `services/elevenlabs_voice_service.py` -/

/-- The symbol/markdown/pause replacement pipeline of
`_optimize_text_for_speech` (lines 211–228), in source order: strip markdown
markers, replace technical symbols with Hindi words, then insert the
response-type-specific pause and emphasis markers. -/
def transform_for_speech (text : String) (response_type : String) : String :=
  let s := str_replace text "**" ""
  let s := str_replace s "*" ""
  let s := str_replace s "#" ""
  let s := str_replace s "`" ""
  let s := str_replace s "₹" "रुपये "
  let s := str_replace s "%" " प्रतिशत"
  let s := str_replace s "°C" " डिग्री सेल्सियस"
  let s := str_replace s "km" " किलोमीटर"
  let s := str_replace s "&" " और "
  if response_type = "crop_health" then
    let s := str_replace s "।" "। (pause) "
    str_replace s "तुरंत" " तुरंत (emphasis) "
  else if response_type = "market" then
    let s := str_replace s "कीमत" " (pause) कीमत"
    str_replace s "बाज़ार" " (pause) बाज़ार"
  else s

/-- The sentence-accumulation loop of `_optimize_text_for_speech`
(lines 234–239): append whole `"।"`-delimited sentences while the
accumulated length stays under 950 characters, stopping at the first
sentence that would reach it. -/
def truncate_sentences : List (List Char) → List Char → List Char
  | [], truncated => truncated
  | s :: rest, truncated =>
    if truncated.length + s.length < 950 then
      truncate_sentences rest (truncated ++ s ++ ['।'])
    else truncated

/-- The fixed continuation phrase appended after truncation. -/
def continuation_phrase : String :=
  "और अधिक जानकारी के लिए पूछें।"

/-- Embedding of `_optimize_text_for_speech`
(`services/elevenlabs_voice_service.py`, lines 208–246): run the replacement
pipeline; if the transformed text exceeds 1,000 characters, rebuild it from
whole `"।"`-delimited sentences up to the 950-character budget and append
the fixed continuation phrase (with a leading space); finally strip
surrounding whitespace. -/
def optimize_text_for_speech (text response_type : String) : String :=
  let s := transform_for_speech text response_type
  let s :=
    if s.data.length > 1000 then
      let sentences := split_ch '।' s.data
      let truncated := truncate_sentences sentences []
      String.mk (truncated ++ (" " ++ continuation_phrase).data)
    else s
  py_strip s

/-! ## `mandi_db/models.py` and `tools/market_tools.py`

Dates (`DateTime` columns and `datetime.now()`) are modelled as integer day
numbers, so `datetime.now() - timedelta(days=d)` becomes `now - d`; the
tools' `strftime` calls, which only format dates for display, keep the raw
day number in the model. -/

/-- Insertion of one element into a list sorted by the boolean comparator
`le`; together with `sort_by` this models a SQL `ORDER BY`. -/
def insert_by {α : Type} (le : α → α → Bool) (a : α) : List α → List α
  | [] => [a]
  | b :: bs => if le a b then a :: b :: bs else b :: insert_by le a bs

/-- Insertion sort by a boolean comparator (the relative order of `ORDER BY`
ties is unspecified in SQL, so any sort models the query). -/
def sort_by {α : Type} (le : α → α → Bool) : List α → List α
  | [] => []
  | a :: as => insert_by le a (sort_by le as)

/-- A stored `market_prices` row (`mandi_db/models.py`, `MarketPrice`). -/
structure MarketPrice where
  state : String
  district : String
  market : String
  commodity : String
  variety : Option String
  grade : Option String
  arrival_date : ℤ
  min_price : ℚ
  max_price : ℚ
  modal_price : ℚ
  price_change : ℚ
  pct_change : ℚ
  trend : String
  is_active : Bool
deriving DecidableEq, Repr

/-- The row filter of `get_market_prices` (`tools/market_tools.py`, lines
37–48): case-insensitive substring match on the commodity, arrival date
within the day window, active rows only, and — when the `state` / `district`
arguments are truthy (present and non-empty) — case-insensitive substring
match on those columns too. -/
def market_price_matches (commodity : String) (state district : Option String)
    (now days : ℤ) (p : MarketPrice) : Bool :=
  ilike_substr p.commodity commodity &&
  decide (now - days ≤ p.arrival_date) &&
  p.is_active &&
  (match state with
   | none => true
   | some s => if s = "" then true else ilike_substr p.state s) &&
  (match district with
   | none => true
   | some d => if d = "" then true else ilike_substr p.district d)

/-- The comparator of `ORDER BY arrival_date DESC, modal_price DESC`. -/
def price_order (a b : MarketPrice) : Bool :=
  decide (b.arrival_date < a.arrival_date) ||
    (decide (a.arrival_date = b.arrival_date) &&
      decide (b.modal_price ≤ a.modal_price))

/-- The query of `get_market_prices`: filter, order, cap at 20 rows. -/
def query_market_prices (db : List MarketPrice) (commodity : String)
    (state district : Option String) (now days : ℤ) : List MarketPrice :=
  (sort_by price_order
    (db.filter (market_price_matches commodity state district now days))).take 20

/-- One `market_info` entry built per returned row (lines 82–95). -/
structure MarketInfo where
  market : String
  district : String
  state : String
  modal_price : ℚ
  min_price : ℚ
  max_price : ℚ
  arrival_date : ℤ
  trend : String
  price_change : ℚ
  pct_change : ℚ
  variety : String
  grade : String
deriving DecidableEq, Repr

/-- `price.variety or "सामान्य"` — Python `or` replaces both `None` and the
empty string by the default. -/
def variety_or_default (v : Option String) (default : String) : String :=
  match v with
  | none => default
  | some s => if s = "" then default else s

/-- Build the `market_info` dict for one row (lines 82–95); the stored
percentage change is rounded to two decimals. -/
def build_market_info (p : MarketPrice) : MarketInfo :=
  { market := p.market
    district := p.district
    state := p.state
    modal_price := p.modal_price
    min_price := p.min_price
    max_price := p.max_price
    arrival_date := p.arrival_date
    trend := p.trend
    price_change := p.price_change
    pct_change := py_round p.pct_change 2
    variety := variety_or_default p.variety "सामान्य"
    grade := variety_or_default p.grade "मध्यम" }

/-- The `price_summary` block of a successful `get_market_prices` result. -/
structure PriceSummary where
  average_price : ℚ
  highest_price : ℚ
  lowest_price : ℚ
  price_range : ℚ
  total_markets : ℕ
deriving DecidableEq, Repr

/-- The `trend_stats` block of a successful `get_market_prices` result. -/
structure TrendStats where
  up_trend_markets : ℕ
  down_trend_markets : ℕ
  stable_markets : ℤ
deriving DecidableEq, Repr

/-- The result dictionary of `get_market_prices`, one constructor per
`status` shape the function can return along the modelled (non-throwing)
paths. -/
inductive PriceQueryResult where
  | no_data (message : String) (commodity : String) (suggestions : List String)
  | success (commodity : String) (data_date : ℤ) (price_summary : PriceSummary)
      (overall_trend : String) (trend_stats : TrendStats)
      (best_markets : List MarketInfo) (all_markets : List MarketInfo)
      (recommendations : List String)
deriving DecidableEq, Repr

/-- The three fixed Hindi suggestions returned with a `no_data` result
(lines 61–65). -/
def no_data_suggestions : List String :=
  ["कमोडिटी का नाम सही से लिखें (जैसे: प्याज, टमाटर, आलू)",
   "अधिक दिनों के लिए खोजें",
   "राज्य या जिला फिल्टर हटाएं"]

/-- Embedding of `get_market_prices` (`tools/market_tools.py`, lines
14–170), along its non-throwing paths: run the query; an empty result yields
the `no_data` dictionary with the three fixed suggestions; otherwise build
per-market entries, summary statistics, the majority-rule overall trend, and
the recommendation list.  The session-context side effects (lines 69–71 and
164–168) mutate external state and are not part of the returned value. -/
def get_market_prices (db : List MarketPrice) (commodity : String)
    (state district : Option String) (days now : ℤ) : PriceQueryResult :=
  let prices := query_market_prices db commodity state district now days
  if prices = [] then
    .no_data (commodity ++ " के लिए हाल की कीमत डेटा उपलब्ध नहीं है") commodity
      no_data_suggestions
  else
    let market_data := prices.map build_market_info
    let modal_prices := prices.map fun p => p.modal_price
    let total_price := modal_prices.foldl (· + ·) 0
    let min_price :=
      match modal_prices with
      | [] => 0
      | h :: t => t.foldl min h
    let max_price := modal_prices.foldl max 0
    let n : ℚ := (prices.length : ℚ)
    let avg_price := py_round (total_price / n) 2
    let price_range := max_price - min_price
    let up_trends := (prices.filter fun p => p.trend = "up").length
    let down_trends := (prices.filter fun p => p.trend = "down").length
    let overall_trend :=
      if up_trends > down_trends ∧ (up_trends : ℚ) > n * (2/5) then "up"
      else if down_trends > up_trends ∧ (down_trends : ℚ) > n * (2/5) then "down"
      else "stable"
    let recommendations :=
      (if overall_trend = "up" then
        [commodity ++ " की कीमतें बढ़ रही हैं - बेचने का अच्छा समय है",
         "गुणवत्ता बनाए रखें और बेहतर दाम की प्रतीक्षा करें"]
      else if overall_trend = "down" then
        [commodity ++ " की कीमतें गिर रही हैं - जल्दी बेचने पर विचार करें",
         "नुकसान से बचने के लिए तुरंत मार्केट में जाएं"]
      else
        [commodity ++ " की कीमतें स्थिर हैं - नियमित बिक्री करें",
         "बाजार रिसर्च करके बेहतर मंडी चुनें"]) ++
      (if price_range > avg_price * (3/10) then
        ["मंडियों में ₹" ++ fmt0 price_range ++ " तक का अंतर है - बेहतर मंडी चुनें"]
      else [])
    .success commodity now
      { average_price := avg_price
        highest_price := max_price
        lowest_price := min_price
        price_range := py_round price_range 2
        total_markets :=
          ((prices.map fun p => p.market ++ "-" ++ p.district).eraseDups).length }
      overall_trend
      { up_trend_markets := up_trends
        down_trend_markets := down_trends
        stable_markets := (prices.length : ℤ) - up_trends - down_trends }
      (market_data.take 5) market_data recommendations

/-- The quality multiplier dictionary of `get_selling_advice` (line 325):
`{"high": 1.15, "medium": 1.0, "low": 0.85}`.  A lookup with any other key
raises `KeyError` in the source. -/
def quality_multiplier_map : List (String × ℚ) :=
  [("high", 23/20), ("medium", 1), ("low", 17/20)]

/-- `str(KeyError(k))` in Python is the `repr` of the key, i.e. the key in
single quotes. -/
def key_error_str (k : String) : String :=
  "'" ++ k ++ "'"

/-- One `best_markets` entry of `get_selling_advice` (lines 329–340). -/
structure AdviceMarket where
  market : String
  district : String
  state : String
  adjusted_price : ℚ
  original_price : ℚ
  trend : String
  date : ℤ
  potential_revenue : Option ℚ
deriving DecidableEq, Repr, Inhabited

/-- The timing-advice dictionary built by `generate_timing_advice`. -/
structure TimingAdvice where
  action : String
  reason : String
  timeline : String
  confidence : String
  market_trend_summary : Option String
deriving DecidableEq, Repr

/-- Embedding of `generate_timing_advice` (`tools/market_tools.py`, lines
532–566).  Callers always pass a positive `total_markets`. -/
def generate_timing_advice (up_trends down_trends total_markets : ℕ)
    (urgency : String) : TimingAdvice :=
  if urgency = "urgent" then
    { action := "sell_immediately"
      reason := "तत्काल बिक्री की आवश्यकता के कारण"
      timeline := "आज ही"
      confidence := "high"
      market_trend_summary := none }
  else
    let up_percentage : ℚ := ((up_trends : ℚ) / (total_markets : ℚ)) * 100
    let down_percentage : ℚ := ((down_trends : ℚ) / (total_markets : ℚ)) * 100
    let advice :=
      if up_percentage > 60 then
        ((if urgency = "flexible" then "wait_few_days" else "sell_soon"),
         "अधिकतर मंडियों में कीमतें बढ़ रही हैं",
         (if urgency = "flexible" then "2-4 दिन" else "1-2 दिन"))
      else if down_percentage > 60 then
        ("sell_immediately", "अधिकतर मंडियों में कीमतें गिर रही हैं", "आज या कल")
      else
        ("flexible_timing", "कीमतें मिश्रित रुझान दिखा रही हैं", "अगले 3-5 दिन में")
    { action := advice.1
      reason := advice.2.1
      timeline := advice.2.2
      confidence := "medium"
      market_trend_summary :=
        some (fmt0 up_percentage ++ "% मंडियों में वृद्धि, " ++
          fmt0 down_percentage ++ "% में गिरावट") }

/-- Embedding of `generate_selling_strategy` (`tools/market_tools.py`,
lines 569–601). -/
def generate_selling_strategy (timing_advice : TimingAdvice)
    (quality_grade : String) (markets : List AdviceMarket) : List String :=
  (if timing_advice.action = "wait_few_days" then
    ["कुछ दिन प्रतीक्षा करें - कीमत बढ़ने की संभावना है"]
  else if timing_advice.action = "sell_immediately" then
    ["तुरंत बेच दें - देरी से कम दाम मिल सकते हैं"]
  else ["अपनी सुविधा के अनुसार बेच सकते हैं"]) ++
  (if quality_grade = "high" then
    ["उच्च गुणवत्ता के कारण 10-15% अधिक दाम की मांग करें"]
  else if quality_grade = "low" then
    ["गुणवत्ता के कारण जल्दी बेचें - देरी से और कम दाम मिलेंगे"]
  else []) ++
  (if markets.length > 1 then
    let price_diff :=
      (markets.headD default).adjusted_price -
        (markets.getLastD default).adjusted_price
    if price_diff > 20 then
      ["सबसे अच्छी मंडी में ₹" ++ fmt0 price_diff ++
        " प्रति क्विंटल अधिक मिल सकता है"]
    else []
  else []) ++
  ["मंडी पहुंचने से पहले फोन करके कीमत कन्फर्म करें",
   "सुबह 6-10 बजे का समय सबसे अच्छा है",
   "ट्रांसपोर्ट कॉस्ट को ध्यान में रखकर मंडी चुनें"]

/-- The `financial_summary` block of `get_selling_advice` (lines 352–364);
the quantity-dependent fields are present only when a truthy (non-zero)
quantity was supplied. -/
structure FinancialSummary where
  average_expected_price : ℚ
  best_possible_price : ℚ
  quality_adjustment : String
  quantity_quintals : Option ℚ
  estimated_revenue : Option ℚ
  best_case_revenue : Option ℚ
  revenue_difference : Option ℚ
deriving DecidableEq, Repr

/-- The `summary` block of a successful `get_selling_advice` result. -/
structure AdviceSummary where
  action : String
  reason : String
  best_market : String
  expected_price : ℚ
deriving DecidableEq, Repr

/-- The result dictionary of `get_selling_advice`, one constructor per
`status` shape. -/
inductive AdviceResult where
  | no_data (message : String)
  | error (message : String) (commodity : String)
  | success (commodity : String) (quality_grade : String) (urgency : String)
      (analysis_date : ℤ) (timing_advice : TimingAdvice)
      (financial_summary : FinancialSummary)
      (best_markets : List AdviceMarket) (strategy : List String)
      (summary : AdviceSummary)
deriving DecidableEq, Repr

/-- The row filter of `get_selling_advice` (lines 303–309): commodity
substring match, five-day window, active rows. -/
def advice_price_matches (commodity : String) (now : ℤ) (p : MarketPrice) :
    Bool :=
  ilike_substr p.commodity commodity &&
  decide (now - 5 ≤ p.arrival_date) &&
  p.is_active

/-- Python falsiness of an optional numeric quantity: absent or zero. -/
def truthy_qty : Option ℚ → Option ℚ
  | none => none
  | some q => if q = 0 then none else some q

/-- The body of `get_selling_advice`'s `try` block (`tools/market_tools.py`,
lines 300–399): query the recent rows sorted by modal price; with no rows
return the `no_data` message; otherwise look up the quality multiplier —
where the source raises `KeyError` for an unknown grade, modelled here as
`Except.error` with `str(KeyError)` — and build the adjusted market list,
timing advice, financial summary, strategy and summary. -/
def get_selling_advice_body (db : List MarketPrice) (commodity : String)
    (quantity : Option ℚ) (quality_grade urgency : String) (now : ℤ) :
    Except String AdviceResult :=
  let recent_prices :=
    (sort_by (fun a b => decide (b.modal_price ≤ a.modal_price))
      (db.filter (advice_price_matches commodity now))).take 10
  if recent_prices = [] then
    .ok (.no_data (commodity ++ " के लिए हाल की मार्केट जानकारी उपलब्ध नहीं है"))
  else
    match quality_multiplier_map.lookup quality_grade with
    | none => .error (key_error_str quality_grade)
    | some quality_multiplier =>
      let best_markets := recent_prices.map fun p =>
        let adjusted_price := p.modal_price * quality_multiplier
        ({ market := p.market
           district := p.district
           state := p.state
           adjusted_price := py_round adjusted_price 2
           original_price := p.modal_price
           trend := p.trend
           date := p.arrival_date
           potential_revenue :=
             (truthy_qty quantity).map fun q => py_round (adjusted_price * q) 2
         } : AdviceMarket)
      let up_trends := (recent_prices.filter fun p => p.trend = "up").length
      let down_trends := (recent_prices.filter fun p => p.trend = "down").length
      let timing_advice :=
        generate_timing_advice up_trends down_trends recent_prices.length urgency
      let adjusted := best_markets.map fun m => m.adjusted_price
      let avg_price := (adjusted.foldl (· + ·) 0) / (best_markets.length : ℚ)
      let best_price :=
        match adjusted with
        | [] => 0
        | h :: t => t.foldl max h
      let financial_summary : FinancialSummary :=
        { average_expected_price := py_round avg_price 2
          best_possible_price := py_round best_price 2
          quality_adjustment := fmt_signed_pct ((quality_multiplier - 1) * 100)
          quantity_quintals := truthy_qty quantity
          estimated_revenue :=
            (truthy_qty quantity).map fun q => py_round (avg_price * q) 2
          best_case_revenue :=
            (truthy_qty quantity).map fun q => py_round (best_price * q) 2
          revenue_difference :=
            (truthy_qty quantity).map fun q =>
              py_round ((best_price - avg_price) * q) 2 }
      let strategy := generate_selling_strategy timing_advice quality_grade best_markets
      .ok (.success commodity quality_grade urgency now timing_advice
        financial_summary (best_markets.take 5) strategy
        { action := timing_advice.action
          reason := timing_advice.reason
          best_market :=
            (best_markets.headD default).market ++ ", " ++
              (best_markets.headD default).district
          expected_price := financial_summary.average_expected_price })

/-- Embedding of `get_selling_advice` (`tools/market_tools.py`, lines
280–414): the surrounding `try`/`except` converts any exception raised in
the body into the uniform Hindi-prefixed error dictionary. -/
def get_selling_advice (db : List MarketPrice) (commodity : String)
    (quantity : Option ℚ) (quality_grade urgency : String) (now : ℤ) :
    AdviceResult :=
  match get_selling_advice_body db commodity quantity quality_grade urgency now with
  | .ok r => r
  | .error e => .error ("सेलिंग सलाह तैयार करने में त्रुटि: " ++ e) commodity

/-! ## `services/weather_service.py` and `tools/weather_tools.py` -/

/-- A day entry of a formatted forecast (`_format_forecast`). -/
structure ForecastDay where
  date : String
  temp_max : ℚ
  temp_min : ℚ
  humidity : ℚ
  condition : String
  rain_chance : ℚ
  wind_speed : ℚ
deriving DecidableEq, Repr

/-- A result dictionary of the weather service / tools: either an error
message or a formatted forecast payload. -/
inductive WeatherResult where
  | error (message : String)
  | success (location : String) (forecast : List ForecastDay)
      (farming_advice : String)
deriving DecidableEq, Repr

/-- Embedding of `get_weather_forecast` (`tools/weather_tools.py`, lines
14–40).  The Weather Service call `weather_service.get_forecast(location,
days)` is the function argument `svc`; the session-context store (lines
36–38) mutates external state and is not part of the returned value. -/
def get_weather_forecast (location : String) (days : ℤ)
    (svc : String → ℤ → WeatherResult) : WeatherResult :=
  if days < 1 ∨ days > 10 then
    .error "Forecast days must be between 1 and 10"
  else svc location days

/-- The advice list built by `_generate_farming_advice`
(`services/weather_service.py`, lines 132–143): one fixed message per
weather rule whose condition holds, in source order.  `condition` is the
already lower-cased `weather[0].main` string. -/
def farming_advice_messages (temp humidity : ℚ) (condition : String) :
    List String :=
  (if has_sub "rain".data condition.data then
    ["Heavy rain expected - ensure proper field drainage"] else []) ++
  (if temp > 35 then ["High temperature - increase irrigation"] else []) ++
  (if temp < 10 then ["Cold weather - protect crops from frost"] else []) ++
  (if humidity > 80 then
    ["High humidity - monitor for fungal diseases"] else []) ++
  (if humidity < 30 then ["Low humidity - ensure soil moisture"] else [])

/-- Embedding of `_generate_farming_advice`
(`services/weather_service.py`, lines 128–145): lower-case the main weather
condition, collect the messages of all matching rules, and join them with
`" | "`, falling back to a generic message when none matched. -/
def generate_farming_advice (temp humidity : ℚ) (weather_main : String) :
    String :=
  let condition : String := ⟨py_lower weather_main.data⟩
  let advice := farming_advice_messages temp humidity condition
  if advice.isEmpty then "Monitor crop conditions regularly"
  else String.intercalate " | " advice

/-! ## `config/models.py` and `farmbot_service.py` -/

/-- The `ChatResponse` pydantic model (`config/models.py`). -/
structure ChatResponse where
  response : String
  session_id : String
  agent_used : Option String
  tools_called : Option (List String)
  confidence : Option ℚ
  timestamp : String
deriving DecidableEq, Repr

/-- One event yielded by the ADK runner during `process_message`:
`author` and `error_message` are `None`-able, `content` is `None` or a list
of text parts, `tool_calls` the (possibly empty) list of tool-call names,
and `escalate` stands for `event.actions and event.actions.escalate`. -/
structure AdkEvent where
  author : Option String
  tool_calls : List String
  is_final : Bool
  content : Option (List String)
  escalate : Bool
  error_message : Option String
deriving DecidableEq, Repr

/-- The event loop of `process_message` (`farmbot_service.py`, lines
127–155): starting from the default Hindi fallback response, track the last
truthy author, accumulate tool-call names, and stop at the first final
event, taking its first content part as the response, or an apology built
from the escalation error message, or keeping the current response. -/
def run_event_loop :
    List AdkEvent → String × Option String × List String →
      String × Option String × List String
  | [], acc => acc
  | e :: rest, (resp, agent, tools) =>
    let agent :=
      match e.author with
      | none => agent
      | some a => if a = "" then agent else some a
    let tools := tools ++ e.tool_calls
    if e.is_final then
      let resp :=
        match e.content with
        | some parts =>
          if parts ≠ [] then parts.headD resp
          else if e.escalate then
            "मुझे खेद है: " ++ (e.error_message.getD "अनुरोध प्रक्रिया में समस्या")
          else resp
        | none =>
          if e.escalate then
            "मुझे खेद है: " ++ (e.error_message.getD "अनुरोध प्रक्रिया में समस्या")
          else resp
      (resp, agent, tools)
    else run_event_loop rest (resp, agent, tools)

/-- The fixed Hindi apology `ChatResponse` produced by the `except` handler
of `process_message` (lines 169–175). -/
def apology_response (session_id timestamp : String) : ChatResponse :=
  { response := "मुझे खेद है, मैं अभी आपकी मदद करने में असमर्थ हूं। कृपया दोबारा कोशिश करें।"
    session_id := session_id
    agent_used := none
    tools_called := none
    confidence := none
    timestamp := timestamp }

/-- Embedding of `FarmBotService.process_message` (`farmbot_service.py`,
lines 80–175).  An uninitialized service raises `RuntimeError` before the
`try` block — modelled as `Except.error`.  Inside the `try` block the
session step and content preparation swallow their own exceptions
internally, so the remaining failure source is the runner event stream,
modelled as `Except String (List AdkEvent)`: a stream exception anywhere is
caught by the `except` handler and converted into the fixed apology;
otherwise the event loop's outcome is packaged as a `ChatResponse` with
de-duplicated tool names. -/
def process_message (is_initialized : Bool) (session_id : String)
    (stream : Except String (List AdkEvent)) (now : String) :
    Except String ChatResponse :=
  if is_initialized = false then
    .error "FarmBot service not initialized"
  else
    match stream with
    | .error _ => .ok (apology_response session_id now)
    | .ok events =>
      let r := run_event_loop events ("मैं अभी आपकी मदद करने में असमर्थ हूं।", none, [])
      .ok
        { response := r.1
          session_id := session_id
          agent_used := r.2.1
          tools_called := some r.2.2.eraseDups
          confidence := none
          timestamp := now }

/-- A sample raw record whose minimum price exceeds its modal price. -/
def sample_raw_record : RawRecord :=
  { arrival_date := some "01-01-2024"
    state := some "Punjab"
    district := some "Amritsar"
    market := some "Amritsar Mandi"
    commodity := some "Wheat"
    variety := none
    grade := none
    min_price := .val 3000
    max_price := .val 2500
    modal_price := .val 2000 }

/-- The cleaned row `_clean_record` produces for `sample_raw_record`. -/
def sample_cleaned_record : CleanedRecord :=
  { state := "Punjab"
    district := "Amritsar"
    market := "Amritsar Mandi"
    commodity := "Wheat"
    variety := none
    grade := none
    arrival_date := ⟨1, 1, 2024⟩
    min_price := 2000
    max_price := 2500
    modal_price := 2000
    is_active := true }

/-! ## Theorems -/

/-- C8: `normalize_crop_name` maps every entry of the fixed Hindi crop
dictionary to its English equivalent (in particular "गेहूं" to "wheat" and
both "चावल" and "धान" to "rice"), returns the empty string for empty input,
case-folds and trims unmapped input such as "  TOMATO " to "tomato", and
returns any input missing from the dictionary unchanged apart from
lower-casing and trimming. -/
theorem normalize_crop_name_spec :
    (∀ p ∈ crop_variations, normalize_crop_name p.1 = p.2) ∧
    normalize_crop_name "" = "" ∧
    normalize_crop_name "  TOMATO " = "tomato" ∧
    ∀ s : String, crop_variations.lookup (py_lower_strip s) = none →
      normalize_crop_name s = py_lower_strip s := by
  refine ⟨by decide, rfl, by decide, ?_⟩
  intro s h
  by_cases hs : s = ""
  · subst hs
    decide
  · unfold normalize_crop_name
    rw [if_neg hs]
    show (List.lookup (py_lower_strip s) crop_variations).getD (py_lower_strip s) =
      py_lower_strip s
    rw [h, Option.getD_none]

/-- Witness for C8: a crop name not in the dictionary passes through. -/
theorem normalize_crop_name_spec_witness :
    normalize_crop_name "सेब" = "सेब" := by
  have h := normalize_crop_name_spec.2.2.2 "सेब" (by decide)
  exact h.trans (by decide)

/-- C3: for a positive previous modal price, the day-over-day trend is
`"up"` exactly when the percentage change exceeds 2, `"down"` exactly when
it is below −2, and `"stable"` exactly when it lies in [−2, 2]; in
particular a percentage change of exactly +2 is classified `"stable"`. -/
theorem price_trend_spec : ∀ current previous : ℚ, 0 < previous →
    ((price_trend current previous = "up" ↔
        percentage_change current previous > 2) ∧
     (price_trend current previous = "down" ↔
        percentage_change current previous < -2) ∧
     (price_trend current previous = "stable" ↔
        -2 ≤ percentage_change current previous ∧
          percentage_change current previous ≤ 2) ∧
     (percentage_change current previous = 2 →
        price_trend current previous = "stable")) := by
  intro current previous _
  by_cases h1 : percentage_change current previous > 2
  · simp only [price_trend, if_pos h1]
    refine ⟨⟨fun _ => h1, fun _ => trivial⟩, ⟨fun h => absurd h (by decide),
      fun h2 => absurd h2 (by linarith)⟩, ⟨fun h => absurd h (by decide),
      fun h2 => absurd h2.2 (by linarith)⟩, fun heq => absurd heq (by linarith)⟩
  · by_cases h2 : percentage_change current previous < -2
    · simp only [price_trend, if_neg h1, if_pos h2]
      refine ⟨⟨fun h => absurd h (by decide), fun hgt => absurd hgt h1⟩,
        ⟨fun _ => h2, fun _ => trivial⟩, ⟨fun h => absurd h (by decide),
        fun hr => absurd hr.1 (by linarith)⟩, fun heq => absurd heq (by linarith)⟩
    · simp only [price_trend, if_neg h1, if_neg h2]
      refine ⟨⟨fun h => absurd h (by decide), fun hgt => absurd hgt h1⟩,
        ⟨fun h => absurd h (by decide), fun hlt => absurd hlt h2⟩,
        ⟨fun _ => ⟨by linarith, by linarith⟩, fun _ => trivial⟩, fun _ => trivial⟩

/-- Witness for C3: a +3% change is classified `"up"` and a +2% change is
classified `"stable"`. -/
theorem price_trend_spec_witness :
    price_trend 103 100 = "up" ∧ price_trend 102 100 = "stable" := by
  refine ⟨((price_trend_spec 103 100 (by norm_num)).1).mpr ?_,
    (price_trend_spec 102 100 (by norm_num)).2.2.2 ?_⟩
  · unfold percentage_change
    norm_num
  · unfold percentage_change
    norm_num

/-- C7: a forecast request with a day count outside 1–10 yields the fixed
input-error result regardless of the Weather Service (the result does not
depend on the service function at all), while any day count within 1–10 is
delegated unchanged to the Weather Service. -/
theorem get_weather_forecast_spec : ∀ (location : String) (days : ℤ)
    (svc : String → ℤ → WeatherResult),
    ((days < 1 ∨ days > 10) →
      get_weather_forecast location days svc =
        .error "Forecast days must be between 1 and 10" ∧
      ∀ svc' : String → ℤ → WeatherResult,
        get_weather_forecast location days svc =
          get_weather_forecast location days svc') ∧
    (1 ≤ days → days ≤ 10 →
      get_weather_forecast location days svc = svc location days) := by
  intro location days svc
  constructor
  · intro h
    refine ⟨by simp only [get_weather_forecast, if_pos h], fun svc' => ?_⟩
    simp only [get_weather_forecast, if_pos h]
  · intro h1 h2
    have hno : ¬(days < 1 ∨ days > 10) := by omega
    simp only [get_weather_forecast, if_neg hno]

/-- Witness for C7: an 11-day request is rejected with the fixed message. -/
theorem get_weather_forecast_spec_witness :
    get_weather_forecast "Mumbai" 11 (fun _ _ => .error "unused") =
      .error "Forecast days must be between 1 and 10" :=
  ((get_weather_forecast_spec "Mumbai" 11 (fun _ _ => .error "unused")).1
    (by decide)).1

/-- Counterexample for C1: calling `process_message` on an uninitialized
service raises `RuntimeError` before the `try` block, so the claim that no
exception ever propagates "in every service state" is false. -/
theorem process_message_uninitialized_raises :
    process_message false "s1" (.ok []) "t0" =
      .error "FarmBot service not initialized" := rfl

/-- C1 (amended): once the service is initialized, `process_message` always
returns a `ChatResponse` — never an exception — and any exception arising
from the runner stream is converted into the fixed Hindi apology response. -/
theorem process_message_initialized_total : ∀ (session_id : String)
    (stream : Except String (List AdkEvent)) (now : String),
    (∃ r : ChatResponse, process_message true session_id stream now = .ok r) ∧
    (∀ e : String, stream = .error e →
      process_message true session_id stream now =
        .ok (apology_response session_id now)) := by
  intro session_id stream now
  cases stream with
  | error e => exact ⟨⟨apology_response session_id now, rfl⟩, fun _ _ => rfl⟩
  | ok events => exact ⟨⟨_, rfl⟩, fun e h => by cases h⟩

/-- Witness for C1: a stream failure yields the fixed apology response. -/
theorem process_message_initialized_total_witness :
    process_message true "s1" (.error "boom") "t0" =
      .ok (apology_response "s1" "t0") :=
  (process_message_initialized_total "s1" (.error "boom") "t0").2 "boom" rfl

/-- C2: `_clean_record` drops every record with a missing or blank required
field (state, district, market, commodity) and every record whose modal
price is not strictly positive; every cleaned record it produces satisfies
`min_price ≤ modal_price ≤ max_price`, with `min_price` clamped to the modal
price whenever the raw minimum exceeded it and `max_price` clamped to the
modal price whenever the raw maximum was below it. -/
theorem clean_record_spec : ∀ r : RawRecord,
    ((is_blank r.state = true ∨ is_blank r.district = true ∨
        is_blank r.market = true ∨ is_blank r.commodity = true) →
      clean_record r = none) ∧
    (safe_float r.modal_price ≤ 0 → clean_record r = none) ∧
    ∀ c : CleanedRecord, clean_record r = some c →
      c.min_price ≤ c.modal_price ∧ c.modal_price ≤ c.max_price ∧
      (safe_float r.min_price > safe_float r.modal_price →
        c.min_price = c.modal_price) ∧
      (safe_float r.max_price < safe_float r.modal_price →
        c.max_price = c.modal_price) := by
  intro r
  rcases hdate : try_parse_date (r.arrival_date.getD "") with _ | d
  · refine ⟨fun _ => ?_, fun _ => ?_, fun c hc => ?_⟩
    · simp only [clean_record, hdate]
    · simp only [clean_record, hdate]
    · simp only [clean_record, hdate] at hc
      exact Option.noConfusion hc
  · by_cases hb : (is_blank r.state = true ∨ is_blank r.district = true ∨
        is_blank r.market = true ∨ is_blank r.commodity = true)
    · have hb' : (is_blank r.state ∨ is_blank r.district ∨
          is_blank r.market ∨ is_blank r.commodity) := by
        simpa using hb
      refine ⟨fun _ => ?_, fun hm => ?_, fun c hc => ?_⟩
      · simp only [clean_record, hdate, if_pos hb']
      · simp only [clean_record, hdate, if_pos hb']
      · simp only [clean_record, hdate, if_pos hb'] at hc
        exact Option.noConfusion hc
    · have hb' : ¬(is_blank r.state ∨ is_blank r.district ∨
          is_blank r.market ∨ is_blank r.commodity) := by
        simpa using hb
      by_cases hm : safe_float r.modal_price ≤ 0
      · refine ⟨fun h => absurd h hb, fun _ => ?_, fun c hc => ?_⟩
        · simp only [clean_record, hdate, if_neg hb', if_pos hm]
        · simp only [clean_record, hdate, if_neg hb', if_pos hm] at hc
          exact Option.noConfusion hc
      · refine ⟨fun h => absurd h hb, fun h => absurd h hm, fun c hc => ?_⟩
        simp only [clean_record, hdate, if_neg hb', if_neg hm] at hc
        injection hc with hc2
        subst hc2
        push_neg at hm
        dsimp only
        refine ⟨?_, ?_, ?_, ?_⟩
        · by_cases hlt : safe_float r.min_price > safe_float r.modal_price
          · simp only [if_pos hlt, le_refl]
          · simp only [if_neg hlt]
            exact le_of_not_lt hlt
        · by_cases hgt : safe_float r.max_price < safe_float r.modal_price
          · simp only [if_pos hgt, le_refl]
          · simp only [if_neg hgt]
            exact le_of_not_lt hgt
        · intro hlt
          simp only [if_pos hlt]
        · intro hgt
          simp only [if_pos hgt]

/-- Witness for C2: a concrete record with `min_price = 3000 > modal_price =
2000` is cleaned into a row whose stored minimum equals the modal price. -/
theorem clean_record_spec_witness :
    sample_cleaned_record.min_price = sample_cleaned_record.modal_price := by
  have h := (clean_record_spec sample_raw_record).2.2 sample_cleaned_record
    (by decide)
  exact h.2.2.1 (by decide)

/-- Helper: decimal rounding never drops below an integer lower bound. -/
theorem round_half_even_ge (n : ℤ) (x : ℚ) (h : (n : ℚ) ≤ x) :
    n ≤ round_half_even x := by
  have hk : n ≤ ⌊x⌋ := Int.le_floor.mpr h
  unfold round_half_even
  split_ifs <;> omega

/-- Helper: decimal rounding never exceeds an integer upper bound. -/
theorem round_half_even_le (n : ℤ) (x : ℚ) (h : x ≤ (n : ℚ)) :
    round_half_even x ≤ n := by
  have hk : ⌊x⌋ ≤ n := by
    have := Int.floor_le_floor (α := ℚ) h
    simpa using this
  have hup : ∀ hcond : ¬(x - (⌊x⌋ : ℚ) < 1/2), ⌊x⌋ + 1 ≤ n := by
    intro hcond
    rcases lt_or_eq_of_le hk with hlt | heq
    · omega
    · exfalso
      have hc : ((⌊x⌋ : ℤ) : ℚ) = (n : ℚ) := by exact_mod_cast heq
      have hfl : (⌊x⌋ : ℚ) ≤ x := Int.floor_le x
      have := not_lt.mp hcond
      linarith
  unfold round_half_even
  split_ifs with h1 h2 h3
  · exact hk
  · exact hup h1
  · exact hk
  · exact hup h1

/-- Helper: rounding to one decimal place preserves integer bounds. -/
theorem py_round_one_bounds (x : ℚ) (a b : ℤ) (ha : (a : ℚ) ≤ x)
    (hb : x ≤ (b : ℚ)) : (a : ℚ) ≤ py_round x 1 ∧ py_round x 1 ≤ (b : ℚ) := by
  unfold py_round
  have h10 : ((10 : ℚ) ^ (1 : ℕ)) = 10 := by norm_num
  rw [h10]
  have hlo : (10 * a : ℤ) ≤ round_half_even (x * 10) := by
    apply round_half_even_ge
    push_cast
    linarith
  have hhi : round_half_even (x * 10) ≤ (10 * b : ℤ) := by
    apply round_half_even_le
    push_cast
    linarith
  constructor
  · have : ((10 * a : ℤ) : ℚ) ≤ (round_half_even (x * 10) : ℚ) := by
      exact_mod_cast hlo
    push_cast at this
    linarith
  · have : ((round_half_even (x * 10) : ℤ) : ℚ) ≤ ((10 * b : ℤ) : ℚ) := by
      exact_mod_cast hhi
    push_cast at this
    linarith

/-- Counterexample for C4: the returned confidence is the clamped value
rounded to one decimal place, not the clamped value itself — at volatility
ratio `1/10000` the clamp gives `79.99` but the function returns `80.0`. -/
theorem predict_confidence_counterexample :
    ¬ (predict_confidence 3 (1/10000) =
        max 40 (min 85 (80 - (1/10000 : ℚ) * 100))) := by
  have h1 : (80 : ℚ) - (1/10000) * 100 = 7999/100 := by norm_num
  have h2 : min (85 : ℚ) (7999/100) = 7999/100 := min_eq_right (by norm_num)
  have h3 : max (40 : ℚ) (7999/100) = 7999/100 := max_eq_right (by norm_num)
  have hf : ⌊(7999/100 : ℚ) * 10 ^ (1 : ℕ)⌋ = 799 := by
    rw [Int.floor_eq_iff]
    norm_num
  have hl : predict_confidence 3 (1/10000) = 80 := by
    unfold predict_confidence
    rw [if_neg (by omega), h1, h2, h3]
    unfold py_round round_half_even
    rw [hf]
    rw [if_neg (by push_cast; norm_num), if_pos (by push_cast; norm_num)]
    norm_num
  intro h
  rw [hl, h1, h2, h3] at h
  norm_num at h

/-- C4 (amended): for a non-empty record list the prediction confidence is
always within [40, 85]; with fewer than 3 records it is exactly 50.0, and
otherwise it equals `clamp(40, 85, 80 − vr × 100)` rounded to one decimal
place, for every volatility ratio `vr`. -/
theorem predict_confidence_spec : ∀ (n : ℕ) (vr : ℚ), 0 < n →
    (40 ≤ predict_confidence n vr ∧ predict_confidence n vr ≤ 85) ∧
    (n < 3 → predict_confidence n vr = 50) ∧
    (3 ≤ n → predict_confidence n vr =
      py_round (max 40 (min 85 (80 - vr * 100))) 1) := by
  intro n vr _
  by_cases h3 : n < 3
  · refine ⟨?_, fun _ => ?_, fun h => absurd h3 (by omega)⟩ <;>
      simp only [predict_confidence, if_pos h3]
    exact ⟨by norm_num, by norm_num⟩
  · refine ⟨?_, fun h => absurd h h3, fun _ => ?_⟩ <;>
      simp only [predict_confidence, if_neg h3]
    have h40 : (40 : ℚ) ≤ max 40 (min 85 (80 - vr * 100)) := le_max_left _ _
    have h85 : max (40 : ℚ) (min 85 (80 - vr * 100)) ≤ 85 := by
      apply max_le (by norm_num)
      exact min_le_left _ _
    have := py_round_one_bounds (max 40 (min 85 (80 - vr * 100))) 40 85
      (by exact_mod_cast h40) (by exact_mod_cast h85)
    constructor
    · exact_mod_cast this.1
    · exact_mod_cast this.2

/-- Witness for C4: five records with a huge volatility ratio still give a
confidence within [40, 85]. -/
theorem predict_confidence_spec_witness :
    40 ≤ predict_confidence 5 2 ∧ predict_confidence 5 2 ≤ 85 :=
  (predict_confidence_spec 5 2 (by decide)).1

/-- C6: when no active row matches the case-insensitive substring query
within the day window, `get_market_prices` returns the `no_data` result
carrying the fixed Hindi message and the non-empty list of exactly three
fixed suggestions (fix the commodity spelling, search more days, remove the
state/district filters). -/
theorem get_market_prices_no_data : ∀ (db : List MarketPrice)
    (commodity : String) (state district : Option String) (days now : ℤ),
    (∀ p ∈ db,
      market_price_matches commodity state district now days p = false) →
    get_market_prices db commodity state district days now =
      .no_data (commodity ++ " के लिए हाल की कीमत डेटा उपलब्ध नहीं है") commodity
        no_data_suggestions ∧
    no_data_suggestions ≠ [] ∧ no_data_suggestions.length = 3 := by
  intro db commodity state district days now h
  have hfil :
      db.filter (market_price_matches commodity state district now days) = [] := by
    rw [List.filter_eq_nil_iff]
    intro p hp
    simp [h p hp]
  refine ⟨?_, by decide, by decide⟩
  unfold get_market_prices query_market_prices
  rw [hfil]
  rfl

/-- A stored row that is inactive (used to witness the empty-query path). -/
def sample_inactive_row : MarketPrice :=
  { state := "Punjab"
    district := "Amritsar"
    market := "Amritsar Mandi"
    commodity := "Onion"
    variety := none
    grade := none
    arrival_date := 0
    min_price := 900
    max_price := 1200
    modal_price := 1000
    price_change := 0
    pct_change := 0
    trend := "stable"
    is_active := false }

/-- Witness for C6: a database holding only an inactive row yields the
`no_data` result with the three fixed suggestions. -/
theorem get_market_prices_no_data_witness :
    get_market_prices [sample_inactive_row] "Onion" none none 7 0 =
      .no_data ("Onion" ++ " के लिए हाल की कीमत डेटा उपलब्ध नहीं है") "Onion"
        no_data_suggestions :=
  (get_market_prices_no_data [sample_inactive_row] "Onion" none none 7 0
    (by decide)).1

/-- Helper: inserting into a list grows its length by one. -/
theorem insert_by_length {α : Type} (le : α → α → Bool) (a : α) :
    ∀ l : List α, (insert_by le a l).length = l.length + 1 := by
  intro l
  induction l with
  | nil => rfl
  | cons b bs ih =>
    unfold insert_by
    split_ifs
    · rfl
    · simp only [List.length_cons, ih]

/-- Helper: sorting preserves length. -/
theorem sort_by_length {α : Type} (le : α → α → Bool) :
    ∀ l : List α, (sort_by le l).length = l.length := by
  intro l
  induction l with
  | nil => rfl
  | cons a as ih =>
    unfold sort_by
    rw [insert_by_length, ih]
    rfl

/-- C9: when at least one recent row matches but the quality grade is not
one of "high", "medium", "low", the dictionary lookup raises `KeyError`
inside the `try` block, and `get_selling_advice` returns the uniform error
envelope: status `error` with the Hindi prefix followed by the stringified
`KeyError` — it neither propagates the exception nor applies a default
multiplier. -/
theorem get_selling_advice_bad_grade : ∀ (db : List MarketPrice)
    (commodity : String) (quantity : Option ℚ) (grade urgency : String)
    (now : ℤ),
    (∃ p ∈ db, advice_price_matches commodity now p = true) →
    quality_multiplier_map.lookup grade = none →
    get_selling_advice db commodity quantity grade urgency now =
      .error ("सेलिंग सलाह तैयार करने में त्रुटि: " ++ key_error_str grade)
        commodity := by
  intro db commodity quantity grade urgency now hex hlook
  obtain ⟨p, hp, hm⟩ := hex
  have hfil : db.filter (advice_price_matches commodity now) ≠ [] := by
    intro h0
    rw [List.filter_eq_nil_iff] at h0
    exact absurd hm (by simpa using h0 p hp)
  have hlen : 0 < (db.filter (advice_price_matches commodity now)).length :=
    List.length_pos.mpr hfil
  have hslen : 0 <
      (sort_by (fun a b => decide (b.modal_price ≤ a.modal_price))
        (db.filter (advice_price_matches commodity now))).length := by
    rw [sort_by_length]
    exact hlen
  have htake : ((sort_by (fun a b => decide (b.modal_price ≤ a.modal_price))
      (db.filter (advice_price_matches commodity now))).take 10) ≠ [] := by
    apply List.length_pos.mp
    rw [List.length_take]
    omega
  unfold get_selling_advice get_selling_advice_body
  rw [if_neg htake, hlook]

/-- A stored active row used to witness the bad-grade path. -/
def sample_active_row : MarketPrice :=
  { state := "Punjab"
    district := "Amritsar"
    market := "Amritsar Mandi"
    commodity := "Onion"
    variety := none
    grade := none
    arrival_date := 0
    min_price := 900
    max_price := 1200
    modal_price := 1000
    price_change := 0
    pct_change := 0
    trend := "stable"
    is_active := true }

/-- Witness for C9: with one matching row and the unknown grade "premium",
the tool returns the Hindi-prefixed `KeyError` text. -/
theorem get_selling_advice_bad_grade_witness :
    get_selling_advice [sample_active_row] "Onion" none "premium" "normal" 0 =
      .error ("सेलिंग सलाह तैयार करने में त्रुटि: " ++ key_error_str "premium")
        "Onion" :=
  get_selling_advice_bad_grade [sample_active_row] "Onion" none "premium"
    "normal" 0 ⟨sample_active_row, by decide, by decide⟩ (by decide)

/-- C10: the current-weather farming-advice rules compound rather than one
being selected — the generic "Monitor crop conditions regularly" is returned
exactly when no rule condition holds, and (for example) temperature above 35
together with humidity above 80 (without rain) yields the `" | "`-joined
concatenation of both the irrigation and the fungal-disease warnings. -/
theorem generate_farming_advice_spec : ∀ (temp humidity : ℚ)
    (weather_main : String),
    (generate_farming_advice temp humidity weather_main =
        "Monitor crop conditions regularly" ↔
      (has_sub "rain".data (py_lower weather_main.data) = false ∧
       ¬ temp > 35 ∧ ¬ temp < 10 ∧ ¬ humidity > 80 ∧ ¬ humidity < 30)) ∧
    (temp > 35 → humidity > 80 →
      has_sub "rain".data (py_lower weather_main.data) = false →
      generate_farming_advice temp humidity weather_main =
        "High temperature - increase irrigation | High humidity - monitor for fungal diseases") := by
  intro t h m
  constructor
  · by_cases h1 : has_sub "rain".data (py_lower m.data) = true <;>
    by_cases h2 : t > 35 <;>
    by_cases h3 : t < 10 <;>
    by_cases h4 : h > 80 <;>
    by_cases h5 : h < 30 <;>
    simp only [generate_farming_advice, farming_advice_messages, h1, h2, h3,
      h4, h5, if_true, if_false, ite_true, ite_false, List.append_nil,
      List.nil_append, List.cons_append, List.isEmpty, Bool.not_eq_true] <;>
    first
      | (apply iff_of_false (by decide) (by simp_all))
      | (apply iff_of_true (by decide) (by simp_all))
  · intro h2 h4 h1
    have h3 : ¬ t < 10 := by linarith
    have h5 : ¬ h < 30 := by linarith
    simp only [generate_farming_advice, farming_advice_messages, h1, h2, h3,
      h4, h5, if_true, if_false, ite_true, ite_false, List.append_nil,
      List.nil_append, List.cons_append]
    decide

/-- Witness for C10: at 36 °C and 85% humidity under a clear sky, both the
irrigation and the fungal-disease warnings are joined in one string. -/
theorem generate_farming_advice_spec_witness :
    generate_farming_advice 36 85 "Clear" =
      "High temperature - increase irrigation | High humidity - monitor for fungal diseases" :=
  (generate_farming_advice_spec 36 85 "Clear").2 (by norm_num) (by norm_num)
    (by decide)

/-- Helper: dropping a leading run of `p`-characters from `pre ++ c :: T`
preserves the suffix `c :: T` when `p c` is false (the drop can never pass
`c`). -/
theorem suffix_dropWhile_of_head (p : Char → Bool) (c : Char) (T : List Char)
    (hc : p c = false) : ∀ pre : List Char,
    (c :: T) <:+ ((pre ++ (c :: T)).dropWhile p) := by
  intro pre
  induction pre with
  | nil =>
    simp only [List.nil_append, List.dropWhile_cons, hc]
    exact List.suffix_refl _
  | cons a pre ih =>
    simp only [List.cons_append, List.dropWhile_cons]
    by_cases ha : p a = true
    · simpa [ha] using ih
    · simp only [ha]
      exact ⟨a :: pre, by simp⟩

/-- Helper: right-stripping is the identity on a list whose last character
is not stripped. -/
theorem rstrip_of_last (p : Char → Bool) (m : List Char) (c : Char)
    (rest : List Char) (h : m.reverse = c :: rest) (hc : p c = false) :
    ((m.reverse.dropWhile p).reverse) = m := by
  rw [h]
  have hred : List.dropWhile p (c :: rest) = c :: rest := by
    simp [List.dropWhile_cons, hc]
  rw [hred, ← h, List.reverse_reverse]

set_option maxRecDepth 100000 in
set_option maxHeartbeats 1000000 in
/-- Counterexample for C5: the 1,000-character threshold is checked on the
transformed text, not on the input.  An input of 1,001 asterisks is longer
than 1,000 characters, but the markdown stripping reduces it to the empty
string, so the output is empty and does not end in the continuation
phrase. -/
theorem optimize_text_counterexample :
    (String.mk (List.replicate 1001 '*')).data.length > 1000 ∧
    optimize_text_for_speech (String.mk (List.replicate 1001 '*')) "general" =
      "" ∧
    ¬ (continuation_phrase.data <:+
        (optimize_text_for_speech (String.mk (List.replicate 1001 '*'))
          "general").data) := by
  refine ⟨by simp, ?_, ?_⟩
  · decide
  · intro hsuf
    have h0 : (optimize_text_for_speech (String.mk (List.replicate 1001 '*'))
        "general").data = [] := by decide
    rw [h0] at hsuf
    have := List.eq_nil_of_suffix_nil hsuf
    exact absurd this (by decide)

/-- C5 (amended): for every input whose transformed text (after the
markdown, symbol, and pause replacements) is longer than 1,000 characters,
and every response type, the speech-text optimization returns a string
ending in the fixed continuation phrase "और अधिक जानकारी के लिए पूछें।". -/
theorem optimize_text_ends_with_phrase : ∀ (text response_type : String),
    (transform_for_speech text response_type).data.length > 1000 →
    continuation_phrase.data <:+
      (optimize_text_for_speech text response_type).data := by
  intro text rt hlen
  simp only [optimize_text_for_speech]
  rw [if_pos hlen]
  show continuation_phrase.data <:+
    py_strip_list
      (truncate_sentences (split_ch '।' (transform_for_speech text rt).data) [] ++
        (' ' :: continuation_phrase.data))
  set x := truncate_sentences (split_ch '।' (transform_for_speech text rt).data) []
    with hx
  have hT : continuation_phrase.data = 'औ' :: continuation_phrase.data.tail := rfl
  have step1 : continuation_phrase.data <:+
      ((x ++ (' ' :: continuation_phrase.data)).dropWhile Char.isWhitespace) := by
    have h1 := suffix_dropWhile_of_head Char.isWhitespace 'औ'
      continuation_phrase.data.tail (by decide) (x ++ [' '])
    rw [← hT] at h1
    simpa [List.append_assoc] using h1
  obtain ⟨u, hu⟩ := step1
  have hTrev : continuation_phrase.data.reverse =
      '।' :: continuation_phrase.data.reverse.tail := rfl
  have hm : ((x ++ (' ' :: continuation_phrase.data)).dropWhile
      Char.isWhitespace).reverse =
      '।' :: (continuation_phrase.data.reverse.tail ++ u.reverse) := by
    rw [← hu, List.reverse_append, hTrev, List.cons_append]
    rfl
  have hid := rstrip_of_last Char.isWhitespace
    ((x ++ (' ' :: continuation_phrase.data)).dropWhile Char.isWhitespace)
    '।' (continuation_phrase.data.reverse.tail ++ u.reverse) hm (by decide)
  unfold py_strip_list
  rw [hid]
  exact ⟨u, hu⟩

set_option maxRecDepth 100000 in
set_option maxHeartbeats 1000000 in
/-- Witness for C5: 1,001 letters (unchanged by the replacement pipeline)
exceed the threshold and the output ends with the continuation phrase. -/
theorem optimize_text_ends_with_phrase_witness :
    continuation_phrase.data <:+
      (optimize_text_for_speech (String.mk (List.replicate 1001 'a'))
        "general").data :=
  optimize_text_ends_with_phrase (String.mk (List.replicate 1001 'a'))
    "general" (by decide)

end Kisan
